import Mathlib

/-!
Shallow embedding of the repository's single source file
`src/lib/cdk-stack.ts` (class `BedrockVoiceKnowledgeStack`), and proofs of
the specification's claims about it.

The stack is a one-shot, side-effect-free declaration of a resource graph:
an S3 bucket, two IAM roles with explicit policy statements, a Bedrock
vector knowledge base, an S3 data source with a fixed-size chunking
strategy, a Lambda layer, two Lambda functions, a REST API with two POST
routes, and four CloudFormation outputs.  We embed it as a pure Lean
function `buildStack : String → BedrockVoiceKnowledgeStack` taking the
deployment region (the only ambient configuration the source reads via
`this.region`) and returning the fully constructed graph, together with
the order in which the source constructs and registers each node.
-/

/-- Deterministic generated identifier for a construct (stands for the
provider-generated id such as `knowledgeBaseId` or `dataSourceId`,
which in the embedding is a pure function of the construct identity). -/
def genId (constructId : String) : String := "id-" ++ constructId

/-- Deterministic generated ARN for a construct. -/
def genArn (constructId : String) : String := "arn:aws:::" ++ constructId

/-- A CDK-style unresolved placeholder token (the form CDK tokens print
as before resolution).  In this embedding all generated identifiers are
resolved at construction; this predicate recognises the placeholder
shape so claims about resolvedness can be stated. -/
def isUnresolvedToken (s : String) : Bool :=
  s.data.take 7 == ("$\x7bToken").data

/-- An IAM policy statement: an (action-set, resource-set) pair, as built
by `new iam.PolicyStatement({actions, resources})` in the source. -/
structure PolicyStatement where
  actions : List String
  resources : List String
deriving DecidableEq, Repr

/-- An IAM role: trusted principal, attached managed policies (by AWS
managed-policy name) and the inline policy statements added with
`addToPolicy`, in the order the source adds them. -/
structure Role where
  constructId : String
  assumedBy : String
  managedPolicies : List String
  statements : List PolicyStatement
deriving DecidableEq, Repr

/-- `role.addToPolicy(stmt)` from the source: appends one statement. -/
def Role.addToPolicy (r : Role) (s : PolicyStatement) : Role :=
  { r with statements := r.statements ++ [s] }

/-- S3 bucket removal policy (`cdk.RemovalPolicy`). -/
inductive RemovalPolicy
  | destroy
  | retain
deriving DecidableEq, Repr

/-- S3 bucket encryption mode (`s3.BucketEncryption`). -/
inductive BucketEncryption
  | unencrypted
  | s3Managed
  | kms
deriving DecidableEq, Repr

/-- `s3.BlockPublicAccess`: the four public-access switches. -/
structure BlockPublicAccess where
  blockPublicAcls : Bool
  blockPublicPolicy : Bool
  ignorePublicAcls : Bool
  restrictPublicBuckets : Bool
deriving DecidableEq, Repr

/-- `s3.BlockPublicAccess.BLOCK_ALL`: every switch on. -/
def BlockPublicAccess.blockAll : BlockPublicAccess :=
  ⟨true, true, true, true⟩

/-- Properties passed to `new s3.Bucket` (optional fields are the ones
the CDK defaults when omitted). -/
structure BucketProps where
  removalPolicy : Option RemovalPolicy
  autoDeleteObjects : Bool
  versioned : Bool
  blockPublicAccess : Option BlockPublicAccess
  encryption : Option BucketEncryption
deriving Repr

/-- A constructed S3 bucket.  `removalPolicyExplicit` records whether the
deletion policy was explicitly passed (true in the source) rather than
left to the CDK default (`RETAIN`). -/
structure Bucket where
  constructId : String
  removalPolicy : RemovalPolicy
  removalPolicyExplicit : Bool
  autoDeleteObjects : Bool
  versioned : Bool
  blockPublicAccess : BlockPublicAccess
  encryption : BucketEncryption
  bucketArn : String
  bucketName : String
deriving DecidableEq, Repr

/-- `new s3.Bucket(this, id, props)`: applies the CDK defaults
(removal policy `RETAIN`, public access unblocked, no encryption)
to omitted optional props and resolves the generated attributes. -/
def mkBucket (id : String) (props : BucketProps) : Bucket :=
  { constructId := id
    removalPolicy := props.removalPolicy.getD .retain
    removalPolicyExplicit := props.removalPolicy.isSome
    autoDeleteObjects := props.autoDeleteObjects
    versioned := props.versioned
    blockPublicAccess := props.blockPublicAccess.getD ⟨false, false, false, false⟩
    encryption := props.encryption.getD .unencrypted
    bucketArn := genArn id
    bucketName := "bucket-" ++ genId id }

/-- The Bedrock vector knowledge base construct
(`bedrock.VectorKnowledgeBase`).  `existingRole` is the service role the
source passes; the knowledge base references it rather than creating
its own. -/
structure VectorKnowledgeBase where
  constructId : String
  embeddingsModel : String
  name : String
  description : String
  existingRole : Role
  knowledgeBaseId : String
deriving DecidableEq, Repr

/-- Fixed-size chunking parameters as passed to
`bedrock.ChunkingStrategy.fixedSize` in the source: a maximum unit size
in tokens and an overlap percentage (the overlap fraction times 100, so
`overlapPercentage = 20` is the fraction 0.20). -/
structure FixedSizeChunking where
  maxTokens : Nat
  overlapPercentage : Nat
deriving DecidableEq, Repr

/-- Modelled from the spec: the chunking-parameter validity check the
external construct library applies at binding construction (the library
code is not part of `src/`).  The spec requires max unit size > 0 and
overlap fraction in [0,1); with the overlap expressed as a percentage
the fraction bound is `overlapPercentage < 100` (the lower bound 0 ≤
fraction is automatic for a natural-number percentage).  Construction of
the `DataSourceBinding` is accepted exactly when this holds. -/
def chunkingAccepted (c : FixedSizeChunking) : Bool :=
  decide (0 < c.maxTokens) && decide (c.overlapPercentage < 100)

/-- The S3 data source construct (`bedrock.S3DataSource`): binds the
bucket to the knowledge base under a chunking strategy. -/
structure S3DataSource where
  constructId : String
  bucketConstructId : String
  knowledgeBaseConstructId : String
  dataSourceName : String
  chunkingStrategy : FixedSizeChunking
  dataSourceId : String
deriving DecidableEq, Repr

/-- A Lambda layer version (`lambda.LayerVersion`). -/
structure LayerVersion where
  constructId : String
  codePath : String
  compatibleRuntimes : List String
  description : String
deriving DecidableEq, Repr

/-- A Lambda function declaration (`lambda.Function`): runtime contract
only, the handler body is external.  The environment is an ordered
mapping of variable name to (already resolved) string value. -/
structure LambdaFunction where
  constructId : String
  runtime : String
  handler : String
  codePath : String
  roleConstructId : String
  timeoutSeconds : Nat
  memorySize : Nat
  layers : List String
  environment : List (String × String)
deriving DecidableEq, Repr

/-- CORS preflight options (`defaultCorsPreflightOptions`). -/
structure CorsOptions where
  allowOrigins : List String
  allowMethods : List String
  allowHeaders : List String
deriving DecidableEq, Repr

/-- `apigateway.Cors.ALL_ORIGINS`. -/
def corsAllOrigins : List String := ["*"]

/-- `apigateway.Cors.ALL_METHODS`. -/
def corsAllMethods : List String :=
  ["OPTIONS", "GET", "PUT", "POST", "DELETE", "PATCH", "HEAD"]

/-- The REST API (`apigateway.RestApi`) with the resource tree flattened:
`resources` lists the path (as segments under the root) of every
resource created with `addResource`, in creation order; `methods` lists
every registered method as (resource path, HTTP verb, construct id of
the integrated Lambda), in registration order. -/
structure RestApi where
  constructId : String
  restApiName : String
  description : String
  defaultCorsPreflightOptions : CorsOptions
  resources : List (List String)
  methods : List (List String × String × String)
  url : String
deriving DecidableEq, Repr

/-- The top-level resources of the API: those added directly on the
root, i.e. whose path has exactly one segment. -/
def topLevelResources (api : RestApi) : List (List String) :=
  api.resources.filter (fun p => p.length == 1)

/-- The methods registered on a given resource path. -/
def methodsOn (api : RestApi) (p : List String) : List (List String × String × String) :=
  api.methods.filter (fun m => m.1 == p)

/-- A CloudFormation output (`cdk.CfnOutput`). -/
structure CfnOutput where
  name : String
  value : String
  description : String
deriving DecidableEq, Repr

/-- The fully constructed stack: every entity the source declares, plus
`constructionOrder`, the list of construction / registration events in
the order the constructor body executes them. -/
structure BedrockVoiceKnowledgeStack where
  documentBucket : Bucket
  lambdaServiceRole : Role
  bedrockServiceRole : Role
  knowledgeBase : VectorKnowledgeBase
  s3DataSource : S3DataSource
  transcribeLayer : LayerVersion
  speechToTextFunction : LambdaFunction
  queryWithVoiceFunction : LambdaFunction
  api : RestApi
  outputs : List CfnOutput
  constructionOrder : List String
deriving DecidableEq, Repr

/-- The constructor body of `BedrockVoiceKnowledgeStack`, translated
statement by statement from `src/lib/cdk-stack.ts`.  `region` is
`this.region`, the deployment region inherited from the stack
environment. -/
def buildStack (region : String) : BedrockVoiceKnowledgeStack :=
  -- Create S3 bucket for document storage
  let documentBucket := mkBucket "DocumentBucket"
    { removalPolicy := some .destroy
      autoDeleteObjects := true
      versioned := true
      blockPublicAccess := some BlockPublicAccess.blockAll
      encryption := some .s3Managed }
  -- Create IAM role for Lambda functions
  let lambdaServiceRole : Role :=
    { constructId := "LambdaServiceRole"
      assumedBy := "lambda.amazonaws.com"
      managedPolicies := ["service-role/AWSLambdaBasicExecutionRole"]
      statements := [] }
  -- Add Bedrock permissions for Lambda
  let lambdaServiceRole := lambdaServiceRole.addToPolicy
    { actions :=
        ["bedrock:InvokeModel", "bedrock:Retrieve", "bedrock:RetrieveAndGenerate",
         "bedrock:ListKnowledgeBases", "bedrock:GetKnowledgeBase",
         "bedrock:UpdateKnowledgeBase", "bedrock:CreateKnowledgeBase",
         "bedrock:DeleteKnowledgeBase", "bedrock-agent:*", "bedrock-agent-runtime:*"]
      resources := ["*"] }
  -- Add Polly permissions for Lambda
  let lambdaServiceRole := lambdaServiceRole.addToPolicy
    { actions := ["polly:SynthesizeSpeech", "polly:DescribeVoices"]
      resources := ["*"] }
  -- Add Transcribe permissions for Lambda
  let lambdaServiceRole := lambdaServiceRole.addToPolicy
    { actions :=
        ["transcribe:StartStreamTranscription",
         "transcribe:StartStreamTranscriptionWebSocket"]
      resources := ["*"] }
  -- Add S3 permissions for Lambda
  let lambdaServiceRole := lambdaServiceRole.addToPolicy
    { actions := ["s3:GetObject", "s3:PutObject", "s3:ListBucket"]
      resources := [documentBucket.bucketArn, documentBucket.bucketArn ++ "/*"] }
  -- Create a separate IAM role for Bedrock Knowledge Base
  let bedrockServiceRole : Role :=
    { constructId := "BedrockServiceRole"
      assumedBy := "bedrock.amazonaws.com"
      managedPolicies := []
      statements := [] }
  -- Add S3 permissions for Bedrock Knowledge Base
  let bedrockServiceRole := bedrockServiceRole.addToPolicy
    { actions := ["s3:GetObject", "s3:PutObject", "s3:ListBucket"]
      resources := [documentBucket.bucketArn, documentBucket.bucketArn ++ "/*"] }
  let bedrockServiceRole := bedrockServiceRole.addToPolicy
    { actions := ["bedrock:InvokeModel"]
      resources := ["*"] }
  -- Create a Bedrock Knowledge Base using the higher-level construct
  let knowledgeBase : VectorKnowledgeBase :=
    { constructId := "VectorKnowledgeBase"
      embeddingsModel := "amazon.titan-embed-text-v1"
      name := "VoiceEnabledKnowledgeBase"
      description := "Vector knowledge base with voice capabilities"
      existingRole := bedrockServiceRole
      knowledgeBaseId := genId "VectorKnowledgeBase" }
  -- Add S3 bucket as a data source for the knowledge base
  let s3DataSource : S3DataSource :=
    { constructId := "S3DataSource"
      bucketConstructId := documentBucket.constructId
      knowledgeBaseConstructId := knowledgeBase.constructId
      dataSourceName := "DocumentSource"
      chunkingStrategy := { maxTokens := 500, overlapPercentage := 20 }
      dataSourceId := genId "S3DataSource" }
  -- Create Lambda layer for Transcribe streaming
  let transcribeLayer : LayerVersion :=
    { constructId := "TranscribeLayer"
      codePath := "../lambda/layers/transcribe_streaming.zip"
      compatibleRuntimes := ["python3.13"]
      description := "Layer containing Amazon Transcribe streaming SDK" }
  -- Create the Speech-to-Text Lambda function
  let speechToTextFunction : LambdaFunction :=
    { constructId := "SpeechToTextFunction"
      runtime := "python3.13"
      handler := "transcribe_function.lambda_handler"
      codePath := "../lambda/transcribe/src"
      roleConstructId := lambdaServiceRole.constructId
      timeoutSeconds := 30
      memorySize := 256
      layers := [transcribeLayer.constructId]
      environment := [("REGION", region)] }
  -- Create the Knowledge Base Query with Voice Response Lambda function
  let queryWithVoiceFunction : LambdaFunction :=
    { constructId := "QueryWithVoiceFunction"
      runtime := "python3.13"
      handler := "kb_polly_function.lambda_handler"
      codePath := "../lambda/queryKnowledgeBase/src"
      roleConstructId := lambdaServiceRole.constructId
      timeoutSeconds := 30
      memorySize := 256
      layers := []
      environment :=
        [("KNOWLEDGE_BASE_ID", knowledgeBase.knowledgeBaseId),
         ("REGION", region),
         ("DATA_SOURCE_ID", s3DataSource.dataSourceId)] }
  -- Create API Gateway, resources and methods
  let api : RestApi :=
    { constructId := "MultimodalKnowledgeApi"
      restApiName := "Bedrock Voice Knowledge API"
      description := "API for interacting with a Bedrock knowledge base using voice and text"
      defaultCorsPreflightOptions :=
        { allowOrigins := corsAllOrigins
          allowMethods := corsAllMethods
          allowHeaders := ["Content-Type", "X-Amz-Date", "Authorization", "X-Api-Key"] }
      resources :=
        [["knowledge-base"], ["knowledge-base", "query"], ["transcribe"]]
      methods :=
        [(["knowledge-base", "query"], "POST", queryWithVoiceFunction.constructId),
         (["transcribe"], "POST", speechToTextFunction.constructId)]
      url := "https://" ++ genId "MultimodalKnowledgeApi" ++ ".execute-api." ++ region ++ ".amazonaws.com/prod/" }
  -- Outputs
  let outputs : List CfnOutput :=
    [{ name := "ApiUrl", value := api.url
       description := "URL of the API Gateway" },
     { name := "KnowledgeBaseId", value := knowledgeBase.knowledgeBaseId
       description := "ID of the created Bedrock Knowledge Base" },
     { name := "DataSourceId", value := s3DataSource.dataSourceId
       description := "ID of the S3 data source" },
     { name := "DocumentBucketName", value := documentBucket.bucketName
       description := "Name of the S3 bucket for document storage" }]
  { documentBucket := documentBucket
    lambdaServiceRole := lambdaServiceRole
    bedrockServiceRole := bedrockServiceRole
    knowledgeBase := knowledgeBase
    s3DataSource := s3DataSource
    transcribeLayer := transcribeLayer
    speechToTextFunction := speechToTextFunction
    queryWithVoiceFunction := queryWithVoiceFunction
    api := api
    outputs := outputs
    constructionOrder :=
      ["DocumentBucket", "LambdaServiceRole", "BedrockServiceRole",
       "VectorKnowledgeBase", "S3DataSource", "TranscribeLayer",
       "SpeechToTextFunction", "QueryWithVoiceFunction",
       "MultimodalKnowledgeApi",
       "Resource:/knowledge-base", "Resource:/knowledge-base/query",
       "Method:POST:/knowledge-base/query",
       "Resource:/transcribe", "Method:POST:/transcribe",
       "Output:ApiUrl", "Output:KnowledgeBaseId",
       "Output:DataSourceId", "Output:DocumentBucketName"] }

/-- All inline policy statements of every role constructed by the
stack. -/
def allStatements (s : BedrockVoiceKnowledgeStack) : List PolicyStatement :=
  s.lambdaServiceRole.statements ++ s.bedrockServiceRole.statements

/-- The bucket ARN of the storage resource as generated for the
construct id the source uses. -/
def bucketArn : String := genArn "DocumentBucket"

/-- The contained-object wildcard pattern for the storage resource. -/
def bucketObjectsArn : String := bucketArn ++ "/*"

/-- A statement's resource set references the storage resource when it
contains the bucket ARN or the contained-object pattern. -/
def referencesStorage (s : PolicyStatement) : Bool :=
  s.resources.contains bucketArn || s.resources.contains bucketObjectsArn

/-- A statement touches storage when its action set names an S3
operation. -/
def touchesStorage (s : PolicyStatement) : Bool :=
  s.actions.any (fun a =>
    a == "s3:GetObject" || a == "s3:PutObject" || a == "s3:ListBucket")

/-- Position of a construction / registration event in the order the
constructor body executes. -/
def idx (s : BedrockVoiceKnowledgeStack) (e : String) : Nat :=
  s.constructionOrder.indexOf e

/-- Both target handlers are constructed before their routes are
registered. -/
def handlersBeforeRoutes (s : BedrockVoiceKnowledgeStack) : Bool :=
  decide (idx s "QueryWithVoiceFunction" < idx s "Method:POST:/knowledge-base/query") &&
  decide (idx s "SpeechToTextFunction" < idx s "Method:POST:/transcribe")

/-- Claim C3 as stated: the route set is exactly two top-level
resources, each carrying exactly one POST method, each bound to exactly
one handler (the query route to the query-with-voice function, the
transcribe route to the speech-to-text function), with both handlers
constructed before route registration. -/
def gatewayClaimAsStated (s : BedrockVoiceKnowledgeStack) : Bool :=
  ((topLevelResources s.api).length == 2) &&
  ((topLevelResources s.api).all fun p =>
    ((methodsOn s.api p).length == 1) &&
    ((methodsOn s.api p).all fun m => m.2.1 == "POST")) &&
  ((s.api.methods.filter fun m => m.1.contains "query").all fun m =>
    m.2.2 == s.queryWithVoiceFunction.constructId) &&
  ((s.api.methods.filter fun m => m.1.contains "transcribe").all fun m =>
    m.2.2 == s.speechToTextFunction.constructId) &&
  handlersBeforeRoutes s

/-- The grant statements the source declares for the Lambda service
role, in declaration order (spec-side description, to be compared with
the role the builder constructs). -/
def declaredLambdaGrants : List PolicyStatement :=
  [{ actions :=
       ["bedrock:InvokeModel", "bedrock:Retrieve", "bedrock:RetrieveAndGenerate",
        "bedrock:ListKnowledgeBases", "bedrock:GetKnowledgeBase",
        "bedrock:UpdateKnowledgeBase", "bedrock:CreateKnowledgeBase",
        "bedrock:DeleteKnowledgeBase", "bedrock-agent:*", "bedrock-agent-runtime:*"]
     resources := ["*"] },
   { actions := ["polly:SynthesizeSpeech", "polly:DescribeVoices"]
     resources := ["*"] },
   { actions :=
       ["transcribe:StartStreamTranscription",
        "transcribe:StartStreamTranscriptionWebSocket"]
     resources := ["*"] },
   { actions := ["s3:GetObject", "s3:PutObject", "s3:ListBucket"]
     resources := [bucketArn, bucketObjectsArn] }]

/-- The grant statements the source declares for the Bedrock service
role, in declaration order (spec-side description). -/
def declaredBedrockGrants : List PolicyStatement :=
  [{ actions := ["s3:GetObject", "s3:PutObject", "s3:ListBucket"]
     resources := [bucketArn, bucketObjectsArn] },
   { actions := ["bedrock:InvokeModel"], resources := ["*"] }]

/-- C1: Every permission grant in either role whose resource set
references the storage resource has resource set exactly
`[bucket-ARN, bucket-ARN/*]`, and no grant statement touching storage
(naming an S3 action) uses a bare `*` as a resource. -/
theorem storage_grants_are_exactly_bucket_patterns (region : String) :
    ((allStatements (buildStack region)).all fun s =>
      (!referencesStorage s || s.resources == [bucketArn, bucketObjectsArn]) &&
      (!touchesStorage s || !(s.resources.contains "*"))) = true := rfl

/-- C2: Each role constructed by the stack carries exactly the grants
explicitly declared in the source — the Lambda role exactly its four
declared statements plus the one declared managed-policy attachment,
the Bedrock role exactly its two declared statements and no managed
policies — and no other grant. -/
theorem roles_carry_exactly_declared_grants (region : String) :
    (buildStack region).lambdaServiceRole.statements = declaredLambdaGrants ∧
    (buildStack region).lambdaServiceRole.managedPolicies =
      ["service-role/AWSLambdaBasicExecutionRole"] ∧
    (buildStack region).bedrockServiceRole.statements = declaredBedrockGrants ∧
    (buildStack region).bedrockServiceRole.managedPolicies = [] := by
  refine ⟨rfl, rfl, rfl, rfl⟩

/-- C3 counterexample: the claim as stated is false on the constructed
stack — the top-level resource `knowledge-base` carries no method (the
POST lives on the nested resource `knowledge-base/query`), so not every
top-level resource carries exactly one POST method. -/
theorem gateway_toplevel_claim_false :
    gatewayClaimAsStated (buildStack "us-east-1") = false := by
  decide

/-- C3 (amended): the Gateway has exactly two top-level resources
(`knowledge-base` and `transcribe`); its route set is exactly two POST
methods, one on the nested resource `knowledge-base/query` bound to the
query-with-voice handler and one on the top-level resource `transcribe`
bound to the speech-to-text handler; the top-level resource
`knowledge-base` itself carries no method; both target handlers are
constructed before their routes are registered. -/
theorem gateway_routes_exact (region : String) :
    topLevelResources (buildStack region).api = [["knowledge-base"], ["transcribe"]] ∧
    (buildStack region).api.methods =
      [(["knowledge-base", "query"], "POST",
        (buildStack region).queryWithVoiceFunction.constructId),
       (["transcribe"], "POST",
        (buildStack region).speechToTextFunction.constructId)] ∧
    methodsOn (buildStack region).api ["knowledge-base"] = [] ∧
    handlersBeforeRoutes (buildStack region) = true :=
  ⟨rfl, rfl, rfl, rfl⟩

/-- C4: The speech-to-text handler's environment is exactly the single
region entry; the query-with-voice handler's environment is exactly the
knowledge-base identifier, the region, and the data-source identifier,
where the two identifiers are the resolved generated identifiers of the
knowledge base and the data source (not unresolved placeholder tokens),
and both of those entities are constructed before the handler. -/
theorem handler_environments_resolved (region : String) :
    (buildStack region).speechToTextFunction.environment = [("REGION", region)] ∧
    (buildStack region).queryWithVoiceFunction.environment =
      [("KNOWLEDGE_BASE_ID", (buildStack region).knowledgeBase.knowledgeBaseId),
       ("REGION", region),
       ("DATA_SOURCE_ID", (buildStack region).s3DataSource.dataSourceId)] ∧
    isUnresolvedToken (buildStack region).knowledgeBase.knowledgeBaseId = false ∧
    isUnresolvedToken (buildStack region).s3DataSource.dataSourceId = false ∧
    idx (buildStack region) "VectorKnowledgeBase" <
      idx (buildStack region) "QueryWithVoiceFunction" ∧
    idx (buildStack region) "S3DataSource" <
      idx (buildStack region) "QueryWithVoiceFunction" :=
  ⟨rfl, rfl, rfl, rfl, of_decide_eq_true rfl, of_decide_eq_true rfl⟩

/-- C5: The knowledge base references the Bedrock service role; that
role's trusted principal is the Bedrock (knowledge-engine) service and
its grants are exactly read/write/list on the two storage patterns plus
invoking the foundation model. -/
theorem knowledge_base_role_trust_and_grants (region : String) :
    (buildStack region).knowledgeBase.existingRole =
      (buildStack region).bedrockServiceRole ∧
    (buildStack region).knowledgeBase.existingRole.assumedBy =
      "bedrock.amazonaws.com" ∧
    (buildStack region).knowledgeBase.existingRole.statements =
      [{ actions := ["s3:GetObject", "s3:PutObject", "s3:ListBucket"]
         resources := [bucketArn, bucketObjectsArn] },
       { actions := ["bedrock:InvokeModel"], resources := ["*"] }] := by
  refine ⟨rfl, rfl, rfl⟩

/-- C6: The document bucket blocks all public access, enables S3-managed
encryption at creation, enables versioning, and carries an explicitly
declared deletion policy (DESTROY, not the CDK default RETAIN). -/
theorem document_bucket_hardened (region : String) :
    (buildStack region).documentBucket.blockPublicAccess =
      BlockPublicAccess.blockAll ∧
    (buildStack region).documentBucket.encryption = BucketEncryption.s3Managed ∧
    (buildStack region).documentBucket.encryption ≠ BucketEncryption.unencrypted ∧
    (buildStack region).documentBucket.versioned = true ∧
    (buildStack region).documentBucket.removalPolicyExplicit = true ∧
    (buildStack region).documentBucket.removalPolicy = RemovalPolicy.destroy :=
  ⟨rfl, rfl, of_decide_eq_true rfl, rfl, rfl, rfl⟩

/-- C7: The data source binding is constructed with chunking parameters
maxTokens 500 and overlap percentage 20 (fraction 0.20); these satisfy
max unit size > 0 and overlap fraction in [0,1), so the binding is
accepted by the chunking-validity check. -/
theorem chunking_params_accepted (region : String) :
    (buildStack region).s3DataSource.chunkingStrategy =
      { maxTokens := 500, overlapPercentage := 20 } ∧
    0 < (buildStack region).s3DataSource.chunkingStrategy.maxTokens ∧
    (buildStack region).s3DataSource.chunkingStrategy.overlapPercentage < 100 ∧
    chunkingAccepted (buildStack region).s3DataSource.chunkingStrategy = true :=
  ⟨rfl, of_decide_eq_true rfl, of_decide_eq_true rfl, rfl⟩

/-- C8: The API's CORS preflight policy, applied at the root, allows all
origins and all methods, and its allowed-header list is exactly
Content-Type, X-Amz-Date, Authorization, X-Api-Key. -/
theorem cors_policy_exact (region : String) :
    (buildStack region).api.defaultCorsPreflightOptions =
      { allowOrigins := corsAllOrigins
        allowMethods := corsAllMethods
        allowHeaders := ["Content-Type", "X-Amz-Date", "Authorization", "X-Api-Key"] } ∧
    (buildStack region).api.defaultCorsPreflightOptions.allowOrigins = ["*"] := by
  refine ⟨rfl, rfl⟩

/-- C9: Graph construction is deterministic — two runs of the builder on
equal configurations produce the same stack, hence identity-for-identity
the same entities and the same grant statements. -/
theorem build_deterministic (r₁ r₂ : String) (h : r₁ = r₂) :
    buildStack r₁ = buildStack r₂ ∧
    allStatements (buildStack r₁) = allStatements (buildStack r₂) := by
  subst h; exact ⟨rfl, rfl⟩

/-- Witness for C9 at the concrete region us-east-1. -/
theorem build_deterministic_witness :
    buildStack "us-east-1" = buildStack "us-east-1" ∧
    allStatements (buildStack "us-east-1") = allStatements (buildStack "us-east-1") :=
  build_deterministic "us-east-1" "us-east-1" rfl

/-- C10: The document bucket's deletion policy is DESTROY with automatic
deletion of contained objects enabled, and it is not RETAIN — deleting
the stack deletes the bucket and its documents. -/
theorem bucket_destroy_policy (region : String) :
    (buildStack region).documentBucket.removalPolicy = RemovalPolicy.destroy ∧
    (buildStack region).documentBucket.removalPolicy ≠ RemovalPolicy.retain ∧
    (buildStack region).documentBucket.autoDeleteObjects = true :=
  ⟨rfl, of_decide_eq_true rfl, rfl⟩
